import Mathlib

/-!
Verification of the BM25 retrieval pipeline in
`src/bm25/.ipynb_checkpoints/main-checkpoint.py`.

The program is a three-stage pipeline: a corpus loader (`load_data`,
`read_pdf`), a retriever (`BM25_retrieve`) and a driver (`main`).  The
external libraries (pdfplumber, jieba, rank_bm25) are modelled as
parameters: PDF extraction results are passed in as values of `PdfResult`,
and the combined tokenize-and-rank step `bm25.get_top_n(tokenized_query,
filtered_corpus, n=1)` is a function parameter `getTopN`; the only facts
used about the real library are captured by `TopNValid` (the returned
documents are drawn from the list handed to it, and a non-empty list yields
a non-empty answer, since `get_top_n` returns `min n (length documents)`
elements of `documents`).

Python dictionaries are modelled as association lists with unique keys in
insertion order; `dict.get(k, '')` is `dictGet`, iteration over `.items()`
is iteration over the list, and the dict comprehension that builds the
corpus is `dictOfList` (later bindings overwrite earlier ones in place).
Exceptions are modelled with explicit error constructors (`PdfResult.error`,
`ListDirResult.fileNotFound`, ...): a Python function that catches an
exception and returns a default is a total Lean function on those values.
-/

namespace AICup

/-- Result of `pdfplumber.open`: either the list of pages, each page's
`extract_text()` being `None` or a string, or a raised exception with its
message. -/
inductive PdfResult where
  | ok (pages : List (Option String))
  | error (msg : String)

/-- `read_pdf` (main-checkpoint.py lines 17-25): joins the text of every
page, treating a `None` extraction as `''`; any exception is caught and the
function returns `''`. -/
def read_pdf (r : PdfResult) : String :=
  match r with
  | .ok pages => String.join (pages.map (fun p => p.getD ""))
  | .error _ => ""

/-- Result of `os.listdir(source_path)`: the directory's entries, a
`FileNotFoundError`, or some other exception. -/
inductive ListDirResult where
  | ok (files : List String)
  | fileNotFound
  | otherError (msg : String)

/-- `f.replace('.pdf', '')` on the character list: removes every
non-overlapping occurrence of `.pdf`, scanning left to right. -/
def stripPdfAll : List Char → List Char
  | '.' :: 'p' :: 'd' :: 'f' :: rest => stripPdfAll rest
  | c :: cs => c :: stripPdfAll cs
  | [] => []

/-- Python `int(...)` on a character list: an optional sign followed by at
least one decimal digit; `none` models the raised `ValueError`. -/
def natOfDigits (l : List Char) : Option Nat :=
  if l ≠ [] ∧ l.all (fun c => c.isDigit) then
    some (l.foldl (fun n c => n * 10 + (c.toNat - 48)) 0)
  else
    none

/-- Sign handling of Python `int(...)`. -/
def intOfChars : List Char → Option Int
  | '-' :: rest => (natOfDigits rest).map (fun n => -(n : Int))
  | '+' :: rest => (natOfDigits rest).map (fun n => (n : Int))
  | l => (natOfDigits l).map (fun n => (n : Int))

/-- The id computation `int(f.replace('.pdf', ''))` (line 35): strips every
occurrence of `.pdf` from the filename and parses the remainder as an
integer; `none` models the `ValueError` raised on a non-numeric remainder. -/
def parseDocId (f : String) : Option Int :=
  intOfChars (stripPdfAll f.data)

/-- `f.endswith('.pdf')` (line 30). -/
def hasPdfExt (f : String) : Bool :=
  f.data.reverse.take 4 == ['f', 'd', 'p', '.']

/-- The `executor.map` / `list(...)` step of `load_data` (lines 33-36):
produces the `(id, text)` pair for every file, propagating the
`ValueError` of a failed id parse (which aborts the whole list). -/
def buildResults (openPdf : String → PdfResult) : List String → Option (List (Int × String))
  | [] => some []
  | f :: fs =>
    match parseDocId f with
    | none => none
    | some id => (buildResults openPdf fs).map (fun rest => (id, read_pdf (openPdf f)) :: rest)

/-- Binding a key in a Python dict: an existing key is updated in place,
a new key is appended (insertion order). -/
def dictInsert (d : List (Int × String)) (k : Int) (v : String) : List (Int × String) :=
  if d.any (fun p => p.1 == k) then
    d.map (fun p => if p.1 == k then (k, v) else p)
  else
    d ++ [(k, v)]

/-- The dict comprehension `{key: value for key, value in results}`
(line 38). -/
def dictOfList (l : List (Int × String)) : List (Int × String) :=
  l.foldl (fun d p => dictInsert d p.1 p.2) []

/-- `load_data` (lines 27-45): lists the `.pdf` files of the directory,
reads each concurrently into an `(id, text)` pair and builds the corpus
dict; a `FileNotFoundError` from `os.listdir` or any other exception
(such as the `ValueError` of a bad filename) is caught and yields `{}`. -/
def load_data (listdir : ListDirResult) (openPdf : String → PdfResult) : List (Int × String) :=
  match listdir with
  | .fileNotFound => []
  | .otherError _ => []
  | .ok files =>
    let file_list := files.filter hasPdfExt
    match buildResults openPdf file_list with
    | none => []
    | some results => dictOfList results

/-- `corpus_dict.get(int(f), '')` (line 50): the value stored for the key,
or `''` when the key is absent. -/
def dictGet (d : List (Int × String)) (k : Int) : String :=
  match d.find? (fun p => p.1 == k) with
  | some p => p.2
  | none => ""

/-- Truthiness of `doc.strip()` (line 51): the document contains at least
one non-whitespace character. -/
def isNonBlank (s : String) : Bool :=
  s.data.any (fun c => !c.isWhitespace)

/-- `BM25_retrieve` (lines 48-63).  `getTopN qs docs` stands for
`bm25.get_top_n(tokenized_query, docs, n=1)` with `bm25` built over the
tokenization of `docs` and `tokenized_query` the tokenization of `qs`.
The reverse lookup `res` (line 62) scans the WHOLE `corpus_dict`, not only
the candidates. -/
def BM25_retrieve (getTopN : String → List String → List String)
    (qs : String) (source : List Int) (corpus_dict : List (Int × String)) : Option Int :=
  let filtered0 := source.map (fun f => dictGet corpus_dict f)
  let filtered_corpus := filtered0.filter isNonBlank
  if filtered_corpus.isEmpty then
    none
  else
    let top_n := getTopN qs filtered_corpus
    let res := (corpus_dict.filter (fun p => top_n.contains p.2)).map Prod.fst
    res.head?

/-- The facts this development uses about `rank_bm25.BM25Okapi.get_top_n`
with `n=1`: it returns elements of the document list it is given, and a
non-empty document list yields a non-empty result (the library returns
`min n (length documents)` of the documents, sorted by score). -/
def TopNValid (getTopN : String → List String → List String) : Prop :=
  ∀ qs corpus, (∀ t ∈ getTopN qs corpus, t ∈ corpus) ∧ (corpus ≠ [] → getTopN qs corpus ≠ [])

/-- A concrete ranking function used to instantiate theorems: always picks
the first document. -/
def take1 (_qs : String) (corpus : List String) : List String :=
  corpus.take 1

/-- One entry of `questions['questions']` (lines 96-99). -/
structure Question where
  qid : Int
  category : String
  query : String
  source : List Int
deriving DecidableEq, Repr

/-- One entry of `answer_dict['answers']` (line 113). -/
structure Answer where
  qid : Int
  retrieve : Int
deriving DecidableEq, Repr

/-- The per-question dispatch of `main` (lines 101-113): select the corpus
by category (for `faq`, the map pre-filtered to the candidate ids, line
106), retrieve, and produce the answer entry; an unknown category or a
`None` retrieval contributes nothing. -/
def answerFor (getTopN : String → List String → List String)
    (corpFin corpIns faqMap : List (Int × String)) (q : Question) : Option Answer :=
  if q.category = "finance" then
    (BM25_retrieve getTopN q.query q.source corpFin).map (fun r => ⟨q.qid, r⟩)
  else if q.category = "insurance" then
    (BM25_retrieve getTopN q.query q.source corpIns).map (fun r => ⟨q.qid, r⟩)
  else if q.category = "faq" then
    let corpus_dict_faq := faqMap.filter (fun p => q.source.contains p.1)
    (BM25_retrieve getTopN q.query q.source corpus_dict_faq).map (fun r => ⟨q.qid, r⟩)
  else
    none

/-- The answer list written by `main` (lines 93-117): the loop over the
questions appends, in order, the answer of every question that retrieved
something. -/
def main_answers (getTopN : String → List String → List String)
    (corpFin corpIns faqMap : List (Int × String)) (questions : List Question) : List Answer :=
  questions.filterMap (answerFor getTopN corpFin corpIns faqMap)

/-- A corpus in which two distinct ids carry the same text, used to exhibit
the candidate-set escape of the reverse lookup. -/
def cxCorpus : List (Int × String) := [(1, "hello"), (2, "hello")]

/-! Unfolding and helper lemmas. -/

theorem BM25_retrieve_eq (getTopN : String → List String → List String)
    (qs : String) (source : List Int) (d : List (Int × String)) :
    BM25_retrieve getTopN qs source d =
      if ((source.map (fun f => dictGet d f)).filter isNonBlank).isEmpty then
        none
      else
        ((d.filter (fun p =>
            (getTopN qs ((source.map (fun f => dictGet d f)).filter isNonBlank)).contains p.2)).map
          Prod.fst).head? := rfl

theorem take1_valid : TopNValid take1 := by
  intro qs corpus
  constructor
  · intro t ht
    exact List.take_subset _ _ ht
  · intro h
    cases corpus with
    | nil => exact absurd rfl h
    | cons c cs => simp [take1]

theorem dictGet_mem (d : List (Int × String)) (k : Int)
    (h : isNonBlank (dictGet d k) = true) :
    ∃ p ∈ d, p.2 = dictGet d k := by
  unfold dictGet at h ⊢
  cases hfind : d.find? (fun p => p.1 == k) with
  | none => rw [hfind] at h; simp [isNonBlank] at h
  | some p => exact ⟨p, List.mem_of_find?_eq_some hfind, rfl⟩

theorem BM25_retrieve_mem (getTopN : String → List String → List String)
    (qs : String) (source : List Int) (d : List (Int × String)) (r : Int)
    (hr : BM25_retrieve getTopN qs source d = some r) :
    ∃ v, (r, v) ∈ d ∧
      v ∈ getTopN qs ((source.map (fun f => dictGet d f)).filter isNonBlank) := by
  rw [BM25_retrieve_eq] at hr
  by_cases h : ((source.map (fun f => dictGet d f)).filter isNonBlank).isEmpty
  · simp [h] at hr
  · rw [if_neg h, List.head?_map] at hr
    cases hfind : (d.filter (fun p =>
        (getTopN qs ((source.map (fun f => dictGet d f)).filter isNonBlank)).contains p.2)).head? with
    | none => rw [hfind] at hr; simp at hr
    | some p =>
      rw [hfind] at hr
      simp only [Option.map_some', Option.some.injEq] at hr
      have hp : p ∈ d.filter (fun p =>
          (getTopN qs ((source.map (fun f => dictGet d f)).filter isNonBlank)).contains p.2) :=
        List.mem_of_mem_head? (by rw [hfind]; exact rfl)
      have hp2 := List.mem_filter.mp hp
      refine ⟨p.2, ?_, ?_⟩
      · rw [← hr]; exact hp2.1
      · have := hp2.2
        simpa using this

theorem BM25_retrieve_isSome (getTopN : String → List String → List String)
    (qs : String) (source : List Int) (d : List (Int × String))
    (hT : TopNValid getTopN)
    (hne : ∃ f ∈ source, isNonBlank (dictGet d f) = true) :
    ∃ r, BM25_retrieve getTopN qs source d = some r := by
  obtain ⟨f, hf, hnb⟩ := hne
  have hmem : dictGet d f ∈ (source.map (fun f => dictGet d f)).filter isNonBlank :=
    List.mem_filter.mpr ⟨List.mem_map_of_mem _ hf, hnb⟩
  have hfc : (source.map (fun f => dictGet d f)).filter isNonBlank ≠ [] := by
    intro h; rw [h] at hmem; exact absurd hmem (List.not_mem_nil _)
  have hE : ((source.map (fun f => dictGet d f)).filter isNonBlank).isEmpty = false :=
    List.isEmpty_eq_false.mpr hfc
  rw [BM25_retrieve_eq, hE]
  simp only [Bool.false_eq_true, if_false]
  have htne := (hT qs _).2 hfc
  cases ht : getTopN qs ((source.map (fun f => dictGet d f)).filter isNonBlank) with
  | nil => exact absurd ht htne
  | cons t ts =>
    have htm : t ∈ getTopN qs ((source.map (fun f => dictGet d f)).filter isNonBlank) := by
      rw [ht]; exact List.mem_cons_self _ _
    have htc := (hT qs _).1 t htm
    have htf := List.mem_filter.mp htc
    have hex : ∃ p ∈ d, p.2 = t := by
      obtain ⟨f', hf', hfd⟩ := List.mem_map.mp htf.1
      have hnb' : isNonBlank (dictGet d f') = true := by rw [hfd]; exact htf.2
      obtain ⟨p, hpd, hp2⟩ := dictGet_mem d f' hnb'
      exact ⟨p, hpd, by rw [hp2, hfd]⟩
    obtain ⟨p, hpd, hpt⟩ := hex
    have hpfil : p ∈ d.filter (fun p =>
        (getTopN qs ((source.map (fun f => dictGet d f)).filter isNonBlank)).contains p.2) := by
      refine List.mem_filter.mpr ⟨hpd, ?_⟩
      simp only [List.elem_iff, hpt]
      exact htm
    rw [ht] at hpfil
    cases hfl : d.filter (fun p => (t :: ts).contains p.2) with
    | nil => rw [hfl] at hpfil; exact absurd hpfil (List.not_mem_nil _)
    | cons c cs => exact ⟨c.1, rfl⟩

theorem answerFor_qid (getTopN : String → List String → List String)
    (corpFin corpIns faqMap : List (Int × String)) (q : Question) (a : Answer)
    (h : answerFor getTopN corpFin corpIns faqMap q = some a) : a.qid = q.qid := by
  unfold answerFor at h
  split_ifs at h <;>
    (obtain ⟨r, -, rfl⟩ := Option.map_eq_some'.mp h; rfl)

theorem answerFor_unknown (getTopN : String → List String → List String)
    (corpFin corpIns faqMap : List (Int × String)) (q : Question)
    (h1 : q.category ≠ "finance") (h2 : q.category ≠ "insurance") (h3 : q.category ≠ "faq") :
    answerFor getTopN corpFin corpIns faqMap q = none := by
  unfold answerFor
  rw [if_neg h1, if_neg h2, if_neg h3]

theorem answer_mem_qid (getTopN : String → List String → List String)
    (corpFin corpIns faqMap : List (Int × String)) (questions : List Question) (a : Answer)
    (h : a ∈ main_answers getTopN corpFin corpIns faqMap questions) :
    ∃ q ∈ questions, a.qid = q.qid := by
  obtain ⟨q, hq, hqa⟩ := List.mem_filterMap.mp h
  exact ⟨q, hq, answerFor_qid _ _ _ _ _ _ hqa⟩

theorem buildResults_eq (openPdf : String → PdfResult) (l : List String)
    (h : ∀ f ∈ l, (parseDocId f).isSome) :
    buildResults openPdf l =
      some (l.map (fun f => ((parseDocId f).getD 0, read_pdf (openPdf f)))) := by
  induction l with
  | nil => rfl
  | cons f fs ih =>
    have hf := h f (List.mem_cons_self _ _)
    cases hp : parseDocId f with
    | none => rw [hp] at hf; simp at hf
    | some id =>
      unfold buildResults
      rw [hp, ih (fun g hg => h g (List.mem_cons_of_mem _ hg))]
      simp [hp]

/-! Claim theorems. -/

/-- C1 (amended): if at least one candidate id maps to a non-blank text,
and every id of the corpus mapping whose text equals some candidate's text
is itself a candidate, then `BM25_retrieve` returns an id that is a member
of the candidate set.  The extra hypothesis is forced by
`BM25_retrieve_escapes_candidates`: the reverse lookup of line 62 scans the
whole corpus dict, so a non-candidate id sharing the winning text can be
returned. -/
theorem BM25_retrieve_stays_in_candidates (getTopN : String → List String → List String)
    (qs : String) (source : List Int) (d : List (Int × String))
    (hT : TopNValid getTopN)
    (hne : ∃ f ∈ source, isNonBlank (dictGet d f) = true)
    (hdup : ∀ p ∈ d, (∃ f ∈ source, dictGet d f = p.2) → p.1 ∈ source) :
    ∃ r, BM25_retrieve getTopN qs source d = some r ∧ r ∈ source := by
  obtain ⟨r, hr⟩ := BM25_retrieve_isSome getTopN qs source d hT hne
  refine ⟨r, hr, ?_⟩
  obtain ⟨v, hv, hvt⟩ := BM25_retrieve_mem getTopN qs source d r hr
  have h1 := (hT qs _).1 v hvt
  have h2 := List.mem_filter.mp h1
  obtain ⟨f, hf, hfd⟩ := List.mem_map.mp h2.1
  exact hdup (r, v) hv ⟨f, hf, hfd⟩

/-- C1 (counterexample): with corpus `{1: "hello", 2: "hello"}` and
candidate set `{2}`, the candidate maps to a non-blank text, the ranking
function is well behaved, yet `BM25_retrieve` returns `1`, which is not in
the candidate set (the reverse lookup finds id 1 first). -/
theorem BM25_retrieve_escapes_candidates :
    TopNValid take1 ∧
    (∃ f ∈ [(2 : Int)], isNonBlank (dictGet cxCorpus f) = true) ∧
    BM25_retrieve take1 "q" [2] cxCorpus = some 1 ∧
    (1 : Int) ∉ [(2 : Int)] :=
  ⟨take1_valid, ⟨2, by decide, by decide⟩, by decide, by decide⟩

/-- C1 (witness): the amended theorem instantiated at a concrete corpus
with distinct texts. -/
theorem BM25_retrieve_stays_in_candidates_witness :
    TopNValid take1 ∧
    (∃ f ∈ [(1 : Int)], isNonBlank (dictGet [(1, "hello"), (2, "world")] f) = true) ∧
    (∀ p ∈ [((1 : Int), "hello"), ((2 : Int), "world")],
      (∃ f ∈ [(1 : Int)], dictGet [((1 : Int), "hello"), ((2 : Int), "world")] f = p.2) →
        p.1 ∈ [(1 : Int)]) ∧
    (∃ r, BM25_retrieve take1 "q" [1] [(1, "hello"), (2, "world")] = some r ∧ r ∈ [(1 : Int)]) :=
  ⟨take1_valid, ⟨1, by decide, by decide⟩, by decide,
    BM25_retrieve_stays_in_candidates take1 "q" [1] [(1, "hello"), (2, "world")]
      take1_valid ⟨1, by decide, by decide⟩ (by decide)⟩

/-- C2: if the candidate set is empty, or every candidate id is absent from
the mapping (then `dictGet` yields `''`) or maps to a blank text, then
`BM25_retrieve` returns `none` (lines 50-55). -/
theorem BM25_retrieve_no_valid_docs (getTopN : String → List String → List String)
    (qs : String) (source : List Int) (d : List (Int × String))
    (h : source = [] ∨ ∀ f ∈ source, isNonBlank (dictGet d f) = false) :
    BM25_retrieve getTopN qs source d = none := by
  have hfc : (source.map (fun f => dictGet d f)).filter isNonBlank = [] := by
    rcases h with h | h
    · rw [h]; rfl
    · refine List.filter_eq_nil_iff.mpr ?_
      intro a ha
      obtain ⟨f, hf, rfl⟩ := List.mem_map.mp ha
      simp [h f hf]
  rw [BM25_retrieve_eq, hfc]
  rfl

/-- C2 (witness): a candidate id absent from the mapping yields no match. -/
theorem BM25_retrieve_no_valid_docs_witness :
    (([(3 : Int)] : List Int) = [] ∨
      ∀ f ∈ [(3 : Int)], isNonBlank (dictGet [(1, "hello")] f) = false) ∧
    BM25_retrieve take1 "q" [3] [(1, "hello")] = none :=
  ⟨Or.inr (by decide),
    BM25_retrieve_no_valid_docs take1 "q" [3] [(1, "hello")] (Or.inr (by decide))⟩

/-- C3 (amended): a question whose category is none of `finance`,
`insurance`, `faq` contributes no entry to the answers list (removing it
leaves the output unchanged), and, provided no other question carries the
same qid, its qid never appears in the written answers.  The distinct-qid
proviso is forced by `unknown_category_qid_can_appear`: a second question
with the same qid and a known category can put that qid into the output. -/
theorem unknown_category_contributes_nothing
    (getTopN : String → List String → List String)
    (corpFin corpIns faqMap : List (Int × String))
    (pre post : List Question) (q : Question)
    (h1 : q.category ≠ "finance") (h2 : q.category ≠ "insurance") (h3 : q.category ≠ "faq") :
    main_answers getTopN corpFin corpIns faqMap (pre ++ q :: post) =
      main_answers getTopN corpFin corpIns faqMap (pre ++ post) ∧
    ((∀ q' ∈ pre ++ post, q'.qid ≠ q.qid) →
      q.qid ∉ (main_answers getTopN corpFin corpIns faqMap (pre ++ q :: post)).map Answer.qid) := by
  have hnone := answerFor_unknown getTopN corpFin corpIns faqMap q h1 h2 h3
  have heq : main_answers getTopN corpFin corpIns faqMap (pre ++ q :: post) =
      main_answers getTopN corpFin corpIns faqMap (pre ++ post) := by
    unfold main_answers
    rw [List.filterMap_append, List.filterMap_append, List.filterMap_cons, hnone]
  refine ⟨heq, ?_⟩
  intro hq hmem
  rw [heq] at hmem
  obtain ⟨a, ham, haq⟩ := List.mem_map.mp hmem
  obtain ⟨q', hq', haq'⟩ := answer_mem_qid _ _ _ _ _ _ ham
  exact hq q' hq' (by rw [← haq', haq])

/-- C3 (counterexample): an unknown-category question with qid 1 is in the
input, yet qid 1 appears in the output, contributed by a second, finance
question that shares the qid. -/
theorem unknown_category_qid_can_appear :
    ((⟨1, "weird", "q", [1]⟩ : Question) ∈
        [(⟨1, "weird", "q", [1]⟩ : Question), ⟨1, "finance", "q", [1]⟩]) ∧
    (⟨1, "weird", "q", [1]⟩ : Question).category ∉ (["finance", "insurance", "faq"] : List String) ∧
    (⟨1, "weird", "q", [1]⟩ : Question).qid ∈
      (main_answers take1 [(1, "hello")] [] []
        [⟨1, "weird", "q", [1]⟩, ⟨1, "finance", "q", [1]⟩]).map Answer.qid := by
  refine ⟨by decide, by decide, by decide⟩

/-- C3 (witness): the amended theorem instantiated with an unknown-category
question whose qid is unique. -/
theorem unknown_category_contributes_nothing_witness :
    ((⟨1, "weird", "q", [1]⟩ : Question).category ≠ "finance") ∧
    ((⟨1, "weird", "q", [1]⟩ : Question).category ≠ "insurance") ∧
    ((⟨1, "weird", "q", [1]⟩ : Question).category ≠ "faq") ∧
    (main_answers take1 [(1, "hello")] [] [] ([] ++ (⟨1, "weird", "q", [1]⟩ : Question) :: [⟨2, "finance", "q", [1]⟩]) =
        main_answers take1 [(1, "hello")] [] [] ([] ++ [⟨2, "finance", "q", [1]⟩]) ∧
      ((∀ q' ∈ ([] ++ [(⟨2, "finance", "q", [1]⟩ : Question)]), q'.qid ≠ (⟨1, "weird", "q", [1]⟩ : Question).qid) →
        (⟨1, "weird", "q", [1]⟩ : Question).qid ∉
          (main_answers take1 [(1, "hello")] [] []
            ([] ++ (⟨1, "weird", "q", [1]⟩ : Question) :: [⟨2, "finance", "q", [1]⟩])).map Answer.qid)) :=
  ⟨by decide, by decide, by decide,
    unknown_category_contributes_nothing take1 [(1, "hello")] [] [] []
      [⟨2, "finance", "q", [1]⟩] ⟨1, "weird", "q", [1]⟩ (by decide) (by decide) (by decide)⟩

/-- C4: each question contributes at most one answer, so the output answers
list is never longer than the input question list (lines 93-113). -/
theorem answers_count_le_questions (getTopN : String → List String → List String)
    (corpFin corpIns faqMap : List (Int × String)) (questions : List Question) :
    (main_answers getTopN corpFin corpIns faqMap questions).length ≤ questions.length :=
  List.length_filterMap_le _ _

/-- C5: when two distinct ids of the corpus mapping carry the same text and
that text is the BM25 winner among the candidates, `BM25_retrieve` returns
some id whose text equals the winning text (any of the duplicates is
possible; the code takes the first key whose value matches, line 62-63). -/
theorem BM25_retrieve_duplicate_text (getTopN : String → List String → List String)
    (qs : String) (source : List Int) (d : List (Int × String)) (a b : Int) (t : String)
    (hab : a ≠ b) (ha : (a, t) ∈ d) (hb : (b, t) ∈ d)
    (hfc : (source.map (fun f => dictGet d f)).filter isNonBlank ≠ [])
    (hwin : getTopN qs ((source.map (fun f => dictGet d f)).filter isNonBlank) = [t]) :
    ∃ r, BM25_retrieve getTopN qs source d = some r ∧ (r, t) ∈ d := by
  have hE := List.isEmpty_eq_false.mpr hfc
  rw [BM25_retrieve_eq, hE]
  simp only [Bool.false_eq_true, if_false, hwin]
  have hafil : (a, t) ∈ d.filter (fun p => ([t] : List String).contains p.2) :=
    List.mem_filter.mpr ⟨ha, by simp⟩
  cases hfl : d.filter (fun p => ([t] : List String).contains p.2) with
  | nil => rw [hfl] at hafil; exact absurd hafil (List.not_mem_nil _)
  | cons c cs =>
    refine ⟨c.1, rfl, ?_⟩
    have hc : c ∈ d.filter (fun p => ([t] : List String).contains p.2) := by
      rw [hfl]; exact List.mem_cons_self _ _
    have hc2 := List.mem_filter.mp hc
    have hct : c.2 = t := by simpa using hc2.2
    rw [← hct]
    exact hc2.1

/-- C5 (witness): the duplicate-text theorem instantiated at a corpus in
which ids 1 and 2 both carry the text `dup`. -/
theorem BM25_retrieve_duplicate_text_witness :
    ((1 : Int) ≠ 2) ∧
    (((1 : Int), "dup") ∈ [((1 : Int), "dup"), ((2 : Int), "dup")]) ∧
    (((2 : Int), "dup") ∈ [((1 : Int), "dup"), ((2 : Int), "dup")]) ∧
    ((([(1 : Int), 2].map (fun f => dictGet [((1 : Int), "dup"), ((2 : Int), "dup")] f)).filter isNonBlank) ≠ []) ∧
    (take1 "q" (([(1 : Int), 2].map (fun f => dictGet [((1 : Int), "dup"), ((2 : Int), "dup")] f)).filter isNonBlank) = ["dup"]) ∧
    (∃ r, BM25_retrieve take1 "q" [1, 2] [((1 : Int), "dup"), ((2 : Int), "dup")] = some r ∧
      (r, "dup") ∈ [((1 : Int), "dup"), ((2 : Int), "dup")]) :=
  ⟨by decide, by decide, by decide, by decide, by decide,
    BM25_retrieve_duplicate_text take1 "q" [1, 2] [((1 : Int), "dup"), ((2 : Int), "dup")]
      1 2 "dup" (by decide) (by decide) (by decide) (by decide) (by decide)⟩

/-- C6: a missing directory (the `FileNotFoundError` of `os.listdir`,
lines 40-42) yields the empty mapping; the handler absorbs the exception,
so the caller sees a plain empty dict. -/
theorem load_data_missing_dir (openPdf : String → PdfResult) :
    load_data ListDirResult.fileNotFound openPdf = [] := rfl

/-- C7: when every filename of the directory parses to an id, the load
succeeds and maps every file to its extracted text — including any file
whose PDF open raised, whose text degrades to `''` via the handler of
`read_pdf` (lines 23-25); one bad file never aborts the directory load. -/
theorem load_data_single_bad_file (files : List String) (openPdf : String → PdfResult)
    (f0 : String) (msg : String)
    (h0 : f0 ∈ files.filter hasPdfExt)
    (hbad : openPdf f0 = PdfResult.error msg)
    (hparse : ∀ f ∈ files.filter hasPdfExt, (parseDocId f).isSome) :
    load_data (ListDirResult.ok files) openPdf =
      dictOfList ((files.filter hasPdfExt).map
        (fun f => ((parseDocId f).getD 0, read_pdf (openPdf f)))) ∧
    read_pdf (openPdf f0) = "" := by
  constructor
  · show (match buildResults openPdf (files.filter hasPdfExt) with
      | none => ([] : List (Int × String))
      | some results => dictOfList results) = _
    rw [buildResults_eq openPdf _ hparse]
  · rw [hbad]; rfl

/-- C7 (witness): a two-file directory in which `1.pdf` fails to open:
the load returns `{1: '', 2: 'text'}`. -/
theorem load_data_single_bad_file_witness :
    ("1.pdf" ∈ ["1.pdf", "2.pdf"].filter hasPdfExt) ∧
    ((fun f => if f = "1.pdf" then PdfResult.error "boom" else PdfResult.ok [some "text"]) "1.pdf" =
      PdfResult.error "boom") ∧
    (∀ f ∈ ["1.pdf", "2.pdf"].filter hasPdfExt, (parseDocId f).isSome) ∧
    (load_data (ListDirResult.ok ["1.pdf", "2.pdf"])
        (fun f => if f = "1.pdf" then PdfResult.error "boom" else PdfResult.ok [some "text"]) =
      dictOfList ((["1.pdf", "2.pdf"].filter hasPdfExt).map
        (fun f => ((parseDocId f).getD 0,
          read_pdf ((fun f => if f = "1.pdf" then PdfResult.error "boom" else PdfResult.ok [some "text"]) f)))) ∧
      read_pdf ((fun f => if f = "1.pdf" then PdfResult.error "boom" else PdfResult.ok [some "text"]) "1.pdf") = "") :=
  ⟨by decide, rfl, by decide,
    load_data_single_bad_file ["1.pdf", "2.pdf"]
      (fun f => if f = "1.pdf" then PdfResult.error "boom" else PdfResult.ok [some "text"])
      "1.pdf" "boom" (by decide) rfl (by decide)⟩

/-- C8: the answers appear in the same relative order as their questions:
the qid sequence of the output is a sublist of the qid sequence of the
input question list (the loop of lines 96-113 appends in order). -/
theorem answers_preserve_question_order (getTopN : String → List String → List String)
    (corpFin corpIns faqMap : List (Int × String)) (questions : List Question) :
    ((main_answers getTopN corpFin corpIns faqMap questions).map Answer.qid).Sublist
      (questions.map Question.qid) := by
  induction questions with
  | nil => exact List.Sublist.refl _
  | cons q qs ih =>
    unfold main_answers at ih ⊢
    rw [List.filterMap_cons]
    cases h : answerFor getTopN corpFin corpIns faqMap q with
    | none => exact List.Sublist.cons _ ih
    | some a =>
      rw [List.map_cons, List.map_cons, answerFor_qid getTopN corpFin corpIns faqMap q a h]
      exact List.Sublist.cons₂ _ ih

/-- C9: whenever some candidate id maps to a present, non-blank text, the
retriever returns an id: the winning text is drawn from the values of the
corpus dict itself, so the reverse lookup of line 62 always finds a key and
the `None` fallback of line 63 is unreachable under this precondition. -/
theorem BM25_retrieve_fallback_unreachable (getTopN : String → List String → List String)
    (qs : String) (source : List Int) (d : List (Int × String))
    (hT : TopNValid getTopN)
    (hne : ∃ f ∈ source, isNonBlank (dictGet d f) = true) :
    ∃ r, BM25_retrieve getTopN qs source d = some r :=
  BM25_retrieve_isSome getTopN qs source d hT hne

/-- C9 (witness): a singleton corpus and candidate set. -/
theorem BM25_retrieve_fallback_unreachable_witness :
    TopNValid take1 ∧
    (∃ f ∈ [(1 : Int)], isNonBlank (dictGet [((1 : Int), "hello")] f) = true) ∧
    (∃ r, BM25_retrieve take1 "q" [1] [((1 : Int), "hello")] = some r) :=
  ⟨take1_valid, ⟨1, by decide, by decide⟩,
    BM25_retrieve_fallback_unreachable take1 "q" [1] [((1 : Int), "hello")]
      take1_valid ⟨1, by decide, by decide⟩⟩

/-- C10: for a `faq` question the corpus handed to `BM25_retrieve` is the
FAQ map pre-filtered to the question's candidate ids (line 106), so any
returned id is a member of the candidate set — the whole-corpus reverse
lookup cannot escape the candidates for this category. -/
theorem faq_retrieval_in_candidates (getTopN : String → List String → List String)
    (corpFin corpIns faqMap : List (Int × String)) (q : Question) (a : Answer)
    (hcat : q.category = "faq")
    (ha : answerFor getTopN corpFin corpIns faqMap q = some a) :
    a.retrieve ∈ q.source := by
  unfold answerFor at ha
  rw [hcat, if_neg (by decide), if_neg (by decide), if_pos rfl] at ha
  obtain ⟨r, hr, rfl⟩ := Option.map_eq_some'.mp ha
  obtain ⟨v, hv, -⟩ := BM25_retrieve_mem getTopN q.query q.source _ r hr
  have h2 := List.mem_filter.mp hv
  simpa using h2.2

/-- C10 (witness): a `faq` question whose single candidate id 5 is
retrieved. -/
theorem faq_retrieval_in_candidates_witness :
    ((⟨1, "faq", "q", [5]⟩ : Question).category = "faq") ∧
    (answerFor take1 [] [] [((5 : Int), "hello")] ⟨1, "faq", "q", [5]⟩ = some ⟨1, 5⟩) ∧
    ((⟨1, 5⟩ : Answer).retrieve ∈ (⟨1, "faq", "q", [5]⟩ : Question).source) :=
  ⟨rfl, by decide,
    faq_retrieval_in_candidates take1 [] [] [((5 : Int), "hello")] ⟨1, "faq", "q", [5]⟩ ⟨1, 5⟩
      rfl (by decide)⟩

end AICup
